import Mathlib

/-!
Verification of the Spectra picture-frame core (src/app.py) against its
natural-language specification.

The Python source is shallowly embedded below:

* RGB pixels are integer triples (`Pixel`); PIL images are rectangular
  lists of rows (`Grid`).  Python integer arithmetic is `Int`; Python's
  floor division `//` (also numpy's integer `//`) is `Int.fdiv`, and
  "truncation toward zero" division (C-style) is `Int.tdiv`.
* `error_diffusion`, `atkinson_dither_fast`, the per-algorithm wrappers
  and `apply_dithering` follow the source line by line; the PIL library
  call `convert("P", ..., dither=FLOYDSTEINBERG)` is an external
  collaborator and enters `apply_dithering` as a function parameter.
* The device work of `display_image` / `update_epaper_thread` /
  `clear_screen` is modelled as the list of driver commands issued
  (`EpdCmd`), with an explicit failure oracle for the exception paths.
* The module-level mutable state (`update_counter`, the config file,
  the published preview globals) is modelled as explicit state records.
-/

namespace Spectra

/-- An RGB colour sample: three integer channels (r, g, b). -/
abbrev Pixel := Int × Int × Int

/-- A raster: list of rows, each row a list of pixels (PIL's `pixels[x,y]`
with `y` indexing rows). -/
abbrev Grid := List (List Pixel)

/-- The fixed 6-colour palette, in source order: red, green, blue, yellow,
black, white.  Identical literal appears in `error_diffusion`,
`atkinson_dither`, `atkinson_dither_fast` and `_custom_palette`. -/
def palette : List Pixel :=
  [(255, 0, 0), (0, 255, 0), (0, 0, 255), (255, 255, 0), (0, 0, 0), (255, 255, 255)]

/-- Squared Euclidean distance over the three channels:
`sum((old[i]-c[i])**2 for i in range(3))` in `error_diffusion`. -/
def dist2 (a b : Pixel) : Int :=
  (a.1 - b.1) ^ 2 + (a.2.1 - b.2.1) ^ 2 + (a.2.2 - b.2.2) ^ 2

/-- `palette - color` squared and summed along the channel axis, as in
`atkinson_dither_fast.find_closest` (`diff = palette - color;
dist = np.sum(diff**2, axis=1)`). -/
def npDist (color p : Pixel) : Int :=
  (p.1 - color.1) ^ 2 + (p.2.1 - color.2.1) ^ 2 + (p.2.2 - color.2.2) ^ 2

/-- Index of the first element with minimal key.  This is the documented
semantics shared by Python's `min` ("the first one encountered" among
minimal elements) and `np.argmin` ("the indices corresponding to the
first occurrence are returned"). -/
def firstMinIdx {α : Type} (key : α → Int) : List α → Nat
  | [] => 0
  | x :: xs => if ∀ v ∈ xs, key x ≤ key v then 0 else firstMinIdx key xs + 1

/-- `min(palette, key=lambda c: sum((old[i]-c[i])**2 for i in range(3)))`
from `error_diffusion` (Python `min` keeps the first minimal element). -/
def find_closest (old : Pixel) : Pixel :=
  palette.getD (firstMinIdx (fun c => dist2 old c) palette) (0, 0, 0)

/-- `np.argmin`: index of the first minimal entry of an integer list. -/
def np_argmin (l : List Int) : Nat := firstMinIdx id l

/-- `find_closest` of `atkinson_dither_fast`:
`palette[np.argmin(np.sum((palette - color)**2, axis=1))]`. -/
def find_closest_np (color : Pixel) : Pixel :=
  palette.getD (np_argmin (palette.map (npDist color))) (0, 0, 0)

/-! ### Grid access and the clamped error update -/

/-- Row `y` of the grid (out-of-range reads never occur in the source;
the default keeps the embedding total). -/
def getRow (g : Grid) (y : Nat) : List Pixel := g.getD y []

/-- `pixels[x,y]` / `arr[y,x]`. -/
def getPx (g : Grid) (x y : Nat) : Pixel := (getRow g y).getD x (0, 0, 0)

/-- `pixels[x,y] = p` / `arr[y,x] = p`. -/
def setPx (g : Grid) (x y : Nat) (p : Pixel) : Grid :=
  g.set y ((getRow g y).set x p)

/-- `max(0, min(255, v))` (and `np.clip(v, 0, 255)` per channel). -/
def clampChan (v : Int) : Int := max 0 (min 255 v)

/-- Channel-wise clamp of a pixel. -/
def clampPx (p : Pixel) : Pixel := (clampChan p.1, clampChan p.2.1, clampChan p.2.2)

/-- Channel-wise sum of two pixels. -/
def addPx (a b : Pixel) : Pixel := (a.1 + b.1, a.2.1 + b.2.1, a.2.2 + b.2.2)

/-- One channel of the neighbour update of `error_diffusion`:
`max(0, min(255, r + err[0]*val//divisor))`.  Python `//` is floor
division, hence `Int.fdiv`. -/
def addChan (divisor e v c : Int) : Int := clampChan (c + Int.fdiv (e * v) divisor)

/-- The full neighbour update of `error_diffusion` for one target pixel. -/
def addErr (divisor : Int) (err : Pixel) (v : Int) (p : Pixel) : Pixel :=
  (addChan divisor err.1 v p.1, addChan divisor err.2.1 v p.2.1,
   addChan divisor err.2.2 v p.2.2)

/-- Per-channel signed quantisation error `old - new`. -/
def errOf (old new : Pixel) : Pixel :=
  (old.1 - new.1, old.2.1 - new.2.1, old.2.2 - new.2.2)

/-! ### The generic error-diffusion loop (`error_diffusion` in the source) -/

/-- The kernel grid flattened in row-major order to `(dy, dx, val)`
entries, mirroring `for dy in range(kh): for dx in range(kw)`. -/
def kernelEntries (kernel : List (List Int)) : List (Nat × Nat × Int) :=
  (kernel.enum.map (fun r => r.2.enum.map (fun c => (r.1, c.1, c.2)))).flatten

/-- Guarded write at target `(nx, ny)`:
`if 0 <= nx < w and 0 <= ny < h: pixels[nx,ny] = clamped update`. -/
def diffuseAt (divisor : Int) (w h : Nat) (err : Pixel) (v : Int)
    (nx ny : Int) (g : Grid) : Grid :=
  if 0 ≤ nx ∧ nx < (w : Int) ∧ 0 ≤ ny ∧ ny < (h : Int) then
    setPx g nx.toNat ny.toNat (addErr divisor err v (getPx g nx.toNat ny.toNat))
  else g

/-- The kernel double loop of `error_diffusion`: entries with weight 0 are
skipped (`if val == 0: continue`), otherwise the error share is added at
`(x + dx - ax, y + dy - ay)`. -/
def propagate (divisor ax ay : Int) (w h x y : Nat) (err : Pixel) :
    Grid → List (Nat × Nat × Int) → Grid
  | g, [] => g
  | g, (dy, dx, v) :: rest =>
    propagate divisor ax ay w h x y err
      (if v = 0 then g
       else diffuseAt divisor w h err v ((x : Int) + dx - ax) ((y : Int) + dy - ay) g)
      rest

/-- Body of the per-pixel step of `error_diffusion`: quantise the current
pixel, write it back, diffuse the error through the kernel. -/
def processPixel (kernel : List (List Int)) (divisor ax ay : Int)
    (w h : Nat) (g : Grid) (x y : Nat) : Grid :=
  let old := getPx g x y
  let new := find_closest old
  let g1 := setPx g x y new
  propagate divisor ax ay w h x y (errOf old new) g1 (kernelEntries kernel)

/-- Raster-order scan positions: `for y in range(h): for x in range(w)`. -/
def scanPositions (w h : Nat) : List (Nat × Nat) :=
  (List.range h).flatMap (fun y => (List.range w).map (fun x => (x, y)))

/-- `error_diffusion(image, kernel, divisor, anchor)` from the source,
returning the RGB raster after the diffusion loop. -/
def error_diffusion (g : Grid) (kernel : List (List Int)) (divisor : Int)
    (anchor : Int × Int) : Grid :=
  let h := g.length
  let w := (g.headD []).length
  (scanPositions w h).foldl
    (fun acc pos => processPixel kernel divisor anchor.1 anchor.2 w h acc pos.1 pos.2) g

/-! ### The wired error-diffusion variants -/

/-- `shiaufan2_dither`. -/
def shiaufan2_dither (g : Grid) : Grid :=
  let kernel : List (List Int) := [[0, 0, 0, 8, 4], [2, 4, 8, 4, 2], [1, 2, 4, 2, 1]]
  error_diffusion g kernel 42 (0, 0)

/-- `stucki_dither`. -/
def stucki_dither (g : Grid) : Grid :=
  let kernel : List (List Int) := [[0, 0, 8, 4, 2], [2, 4, 8, 4, 2], [1, 2, 4, 2, 1]]
  error_diffusion g kernel 42 (2, 0)

/-- `burkes_dither`. -/
def burkes_dither (g : Grid) : Grid :=
  let kernel : List (List Int) := [[0, 0, 8, 4, 0], [2, 4, 8, 4, 2]]
  error_diffusion g kernel 32 (2, 0)

/-- The Jarvis-Judice-Ninke kernel as it appears (commented out) in the
source's `jarvis_judice_ninke_dither`. -/
def jarvis_judice_ninke_kernel : List (List Int) :=
  [[0, 0, 7, 5, 3], [3, 5, 7, 5, 3], [1, 3, 5, 3, 1]]

/-! ### Atkinson (`atkinson_dither_fast`) -/

/-- The fixed neighbour offsets `[(1,0),(2,0),(-1,1),(0,1),(1,1),(0,2)]`. -/
def atkinson_offsets : List (Int × Int) :=
  [(1, 0), (2, 0), (-1, 1), (0, 1), (1, 1), (0, 2)]

/-- `(old_pixel - new_pixel) // 8` per channel (numpy floor division). -/
def fdiv8 (p : Pixel) : Pixel :=
  (Int.fdiv p.1 8, Int.fdiv p.2.1 8, Int.fdiv p.2.2 8)

/-- Guarded neighbour write of `atkinson_dither_fast`:
`arr[ny, nx] = np.clip(arr[ny, nx] + error, 0, 255)`. -/
def atkAddAt (w h : Nat) (error : Pixel) (nx ny : Int) (g : Grid) : Grid :=
  if 0 ≤ nx ∧ nx < (w : Int) ∧ 0 ≤ ny ∧ ny < (h : Int) then
    setPx g nx.toNat ny.toNat (clampPx (addPx (getPx g nx.toNat ny.toNat) error))
  else g

/-- The offset loop of `atkinson_dither_fast`. -/
def atkNeighbors (w h x y : Nat) (error : Pixel) :
    Grid → List (Int × Int) → Grid
  | g, [] => g
  | g, (dx, dy) :: rest =>
    atkNeighbors w h x y error
      (atkAddAt w h error ((x : Int) + dx) ((y : Int) + dy) g) rest

/-- Per-pixel body of `atkinson_dither_fast`: quantise, write back, divide
the error by 8 once (floor), add the quotient to the six neighbours. -/
def atkProcess (w h : Nat) (g : Grid) (x y : Nat) : Grid :=
  let old := getPx g x y
  let new := find_closest_np old
  let g1 := setPx g x y new
  atkNeighbors w h x y (fdiv8 (errOf old new)) g1 atkinson_offsets

/-- `atkinson_dither_fast(image)`, as the RGB raster after the loop. -/
def atkinson_dither_fast (g : Grid) : Grid :=
  let h := g.length
  let w := (g.headD []).length
  (scanPositions w h).foldl (fun acc pos => atkProcess w h acc pos.1 pos.2) g

/-- Atkinson's six unit-weight offsets arranged as a kernel grid around
anchor `(2, 0)`; used to state that `atkinson_dither_fast` is the generic
diffusion with weight 1 at each offset and divisor 8. -/
def atkinson_equiv_kernel : List (List Int) :=
  [[0, 0, 0, 1, 1], [0, 1, 1, 1, 0], [0, 0, 1, 0, 0]]

/-- The nonzero kernel entries expressed as offsets from the anchor,
paired with their weights. -/
def nonzeroOffsets (kernel : List (List Int)) (anchor : Int × Int) :
    List (Int × Int × Int) :=
  (kernelEntries kernel).filterMap fun e =>
    if e.2.2 = 0 then none
    else some ((e.2.1 : Int) - anchor.1, (e.1 : Int) - anchor.2, e.2.2)

/-! ### Algorithm dispatch (`apply_dithering`) -/

/-- `apply_dithering(image, algorithm)`.  The two library conversions
`image.convert("RGB").convert("P", palette=_palette_img,
dither=Image.FLOYDSTEINBERG)` (the "floyd-steinberg" branch and the
fallback) are one and the same external PIL call, passed in as `libFS`.
The `jarvis-judice-ninke` branch is commented out in the source. -/
def apply_dithering (libFS : Grid → Grid) (g : Grid) (algorithm : String) : Grid :=
  if algorithm = "floyd-steinberg" then libFS g
  else if algorithm = "atkinson" then atkinson_dither_fast g
  else if algorithm = "shiau-fan-2" then shiaufan2_dither g
  else if algorithm = "stucki" then stucki_dither g
  else if algorithm = "burkes" then burkes_dither g
  else libFS g

/-- The algorithm names accepted by the `/mode/dither/set` endpoint
(`set_dither`). -/
def set_dither_valid : List String :=
  ["floyd-steinberg", "atkinson", "shiau-fan-2", "jarvis-judice-ninke",
   "stucki", "burkes"]

/-! ### Device commands and the display task (`display_image`,
`update_epaper_thread`, `clear_screen`) -/

/-- One call into the e-paper driver, in the order the source issues them.
`α` is the type of images handed to `epd.display`. -/
inductive EpdCmd (α : Type) where
  | Init : EpdCmd α
  | Clear : EpdCmd α
  | display : α → EpdCmd α
  | sleep : EpdCmd α
deriving DecidableEq, Repr

/-- `display_image(image)` acting on the in-memory `update_counter` `c`:
the counter is incremented first (under `counter_lock`), then if the new
count is divisible by 5 a full clear cycle (`Init`, `Clear`, `sleep`)
precedes the standard update (`Init`, `display`, `sleep`).  Returns the
new counter and the straight-line list of driver commands. -/
def display_image_run {α : Type} (c : Nat) (img : α) : Nat × List (EpdCmd α) :=
  let count := c + 1
  (count,
    (if count % 5 == 0 then [EpdCmd.Init, EpdCmd.Clear, EpdCmd.sleep] else [])
      ++ [EpdCmd.Init, EpdCmd.display img, EpdCmd.sleep])

/-- Commands of the background `clear_screen` task: `Init`, `Clear`,
`sleep`, with no surrounding try/except. -/
def clear_screen_cmds {α : Type} : List (EpdCmd α) :=
  [EpdCmd.Init, EpdCmd.Clear, EpdCmd.sleep]

/-- Execution of a straight-line command list against a failure oracle:
commands run in order; the first command for which `fails` is true raises,
so no later command executes.  Returns the commands actually attempted and
whether the run completed. -/
def runCmds {α : Type} (fails : EpdCmd α → Bool) :
    List (EpdCmd α) → List (EpdCmd α) × Bool
  | [] => ([], true)
  | c :: rest =>
    if fails c then ([c], false)
    else
      let r := runCmds fails rest
      (c :: r.1, r.2)

/-- `update_epaper_thread(image)`: runs `display_image` inside
`try/except`; on success `rendering_complete = True`, on any exception the
error is printed and `rendering_complete = False`.  The second component
is the published completion flag. -/
def update_epaper_run {α : Type} (fails : EpdCmd α → Bool) (c : Nat) (img : α) :
    List (EpdCmd α) × Bool :=
  runCmds fails (display_image_run c img).2

/-- A failure oracle that fails exactly the hardware `display` call. -/
def failsDisplay : EpdCmd Unit → Bool
  | EpdCmd.display _ => true
  | _ => false

/-! ### The maintenance counter over consecutive successful tasks -/

/-- `update_counter` after `k` consecutive successful `display_image`
tasks, starting from the module-initialisation value 0. -/
def update_counter_after : Nat → Nat
  | 0 => 0
  | k + 1 => (display_image_run (update_counter_after k) ()).1

/-- Driver commands of the `(k+1)`-th task (0-based `k`). -/
def nth_task_cmds (k : Nat) : List (EpdCmd Unit) :=
  (display_image_run (update_counter_after k) ()).2

/-- Whether the `(k+1)`-th task performs the maintenance `Clear`. -/
def nth_task_has_clear (k : Nat) : Prop :=
  EpdCmd.Clear ∈ nth_task_cmds k

instance (k : Nat) : Decidable (nth_task_has_clear k) := by
  unfold nth_task_has_clear; infer_instance

/-! ### Persistence model (`config.json`, restart) -/

/-- The keys of `config.json` as written by `default_config` and the
`save_config` call sites; there is no counter field among them. -/
structure DurableConfig where
  mode : String
  single_image : String
  pool_images : List String
  dithering : String
  fit_mode : String
deriving DecidableEq, Repr

/-- `default_config` from the source. -/
def default_config : DurableConfig :=
  { mode := "single", single_image := "", pool_images := [],
    dithering := "floyd-steinberg", fit_mode := "pad" }

/-- Mutable process state relevant to the maintenance counter: the
in-memory module global `update_counter` and the durable `config.json`. -/
structure AppState where
  update_counter : Nat
  disk : DurableConfig
deriving DecidableEq, Repr

/-- Module start-up: `update_counter = 0`, `config = load_config()`. -/
def boot (disk : DurableConfig) : AppState :=
  { update_counter := 0, disk := disk }

/-- State effect of one `display_image` call: `update_counter += 1`;
no write to `config.json` occurs anywhere in `display_image`. -/
def display_image_state (s : AppState) : AppState :=
  { s with update_counter := s.update_counter + 1 }

/-- `save_config()`: rewrites `config.json` with the current config dict
(which has no counter key). -/
def save_config (s : AppState) (c : DurableConfig) : AppState :=
  { s with disk := c }

/-- A process restart: the module reloads, so the in-memory counter is
re-initialised to 0 and the config is re-read from disk. -/
def restart (s : AppState) : AppState := boot s.disk

/-- The state of a freshly started process over a default config. -/
def initialState : AppState := boot default_config

/-! ### Per-request threads (`set_single` and friends) -/

/-- `set_single` (and the other producer endpoints) spawn a fresh
`threading.Thread` per request running
`update_epaper_thread(process_image(path))`; the commands that thread
issues to the device are those of its own `display_image` call.  `c` is
the counter value this thread's increment produced minus one. -/
def submission_cmds {α : Type} (c : Nat) (img : α) : List (EpdCmd α) :=
  (display_image_run c img).2

/-- Number of hardware `display` commands in a command list. -/
def countDisplays {α : Type} (l : List (EpdCmd α)) : Nat :=
  l.countP fun c => match c with
    | EpdCmd.display _ => true
    | _ => false

/-- A command is sent to hardware when some spawned thread issues it;
whatever the interleaving, every command of every thread reaches the
device. -/
def sentToHardware {α : Type} (threads : List (List (EpdCmd α)))
    (cmd : EpdCmd α) : Prop :=
  ∃ t ∈ threads, cmd ∈ t

/-- The three per-request threads spawned by submitting `Display("A")`,
`Display("B")`, `Display("C")` in rapid succession (the three increments
of the shared counter yield counts 1, 2, 3). -/
def threads3 : List (List (EpdCmd String)) :=
  [submission_cmds 0 "A", submission_cmds 1 "B", submission_cmds 2 "C"]

/-! ### The preview endpoint (`/preview`) -/

/-- A Python value as far as the preview handler is concerned. -/
inductive PyVal where
  | pyNone : PyVal
  | pyStr : String → PyVal
  | pyBool : Bool → PyVal
  | pyOther : PyVal
deriving DecidableEq, Repr

/-- The display-publication globals written by `update_epaper_thread`. -/
structure DisplayState where
  rendered_data : Option String
  rendering_complete : Bool
deriving DecidableEq, Repr

/-- Every name bound at module level in `src/app.py` (imports, constants,
function defs, route handlers, and the mutable globals).  Note that
`rendered_image_data` is not among them: no statement in the module ever
assigns that name. -/
def module_global_names : List String :=
  ["sys", "os", "time", "threading", "io", "base64", "json", "random", "np",
   "Flask", "request", "render_template_string", "jsonify", "secure_filename",
   "Image", "ImageOps", "ImageEnhance", "libdir", "epd13in3E", "BASE_DIR",
   "picdir", "single_dir", "pool_dir", "config_path", "default_config",
   "load_config", "save_config", "config", "epd", "get_target_size",
   "_custom_palette", "_palette_img", "atkinson_dither_fast", "apply_dithering",
   "atkinson_dither", "error_diffusion", "shiaufan2_dither", "stucki_dither",
   "burkes_dither", "update_counter", "counter_lock", "display_image",
   "clear_screen", "process_image", "current_image", "rendered_data",
   "rendering_complete", "update_epaper_thread", "initial_display", "app",
   "last_activity", "TIMEOUT", "touch", "watchdog", "INDEX_HTML", "index",
   "preview", "set_single", "pool_add", "pool_list", "pool_remove",
   "set_pool_mode", "set_art_mode", "set_fit_mode", "set_dither", "rotate",
   "get_config", "clear_endpoint"]

/-- Python name resolution for a global read inside a handler: the two
display-publication globals resolve to their current values, any other
module-level binding resolves to some value, and an unbound name raises
`NameError`. -/
def evalGlobal (st : DisplayState) (name : String) : Except String PyVal :=
  if name = "rendered_data" then
    Except.ok (match st.rendered_data with
      | none => PyVal.pyNone
      | some s => PyVal.pyStr s)
  else if name = "rendering_complete" then
    Except.ok (PyVal.pyBool st.rendering_complete)
  else if name ∈ module_global_names then Except.ok PyVal.pyOther
  else Except.error ("NameError: name " ++ name ++ " is not defined")

/-- The body of the `/preview` route:
`jsonify(rendered_image=rendered_image_data, success=rendering_complete)`.
Keyword arguments are evaluated before the call, left to right. -/
def preview_handler (st : DisplayState) : Except String (PyVal × PyVal) := do
  let v ← evalGlobal st "rendered_image_data"
  let s ← evalGlobal st "rendering_complete"
  return (v, s)

/-! ### Helper lemmas: first-minimum search -/

theorem getD_mem_of_lt {α : Type} (l : List α) (j : Nat) (d : α)
    (h : j < l.length) : l.getD j d ∈ l := by
  rw [List.getD_eq_getElem?_getD, List.getElem?_eq_getElem h]
  exact List.getElem_mem h

theorem exists_getD_of_mem {α : Type} {a : α} {l : List α} (h : a ∈ l) (d : α) :
    ∃ j, j < l.length ∧ l.getD j d = a := by
  obtain ⟨n, hn, rfl⟩ := List.mem_iff_getElem.mp h
  exact ⟨n, hn, by simp [List.getD_eq_getElem?_getD, List.getElem?_eq_getElem hn]⟩

theorem firstMinIdx_lt_length {α : Type} (key : α → Int) (x : α) (xs : List α) :
    firstMinIdx key (x :: xs) < (x :: xs).length := by
  induction xs generalizing x with
  | nil => simp [firstMinIdx]
  | cons y ys ih =>
    rw [firstMinIdx]
    split
    · simp
    · have := ih y
      simpa [Nat.succ_lt_succ_iff] using this

theorem firstMinIdx_min {α : Type} (key : α → Int) (l : List α) (d : α) :
    ∀ j, j < l.length →
      key (l.getD (firstMinIdx key l) d) ≤ key (l.getD j d) := by
  induction l with
  | nil => intro j hj; simp at hj
  | cons x xs ih =>
    intro j hj
    rw [firstMinIdx]
    split
    · rename_i hall
      match j with
      | 0 => simp
      | j + 1 =>
        simp only [List.getD_cons_succ, List.getD_cons_zero]
        exact hall _ (getD_mem_of_lt xs j d (by simpa using hj))
    · rename_i hnot
      push_neg at hnot
      obtain ⟨v, hv, hvlt⟩ := hnot
      match j with
      | 0 =>
        simp only [List.getD_cons_succ, List.getD_cons_zero]
        obtain ⟨jv, hjv, rfl⟩ := exists_getD_of_mem hv d
        exact le_of_lt (lt_of_le_of_lt (ih jv hjv) hvlt)
      | j + 1 =>
        simp only [List.getD_cons_succ]
        exact ih j (by simpa using hj)

theorem firstMinIdx_strict {α : Type} (key : α → Int) (l : List α) (d : α) :
    ∀ j, j < firstMinIdx key l →
      key (l.getD (firstMinIdx key l) d) < key (l.getD j d) := by
  induction l with
  | nil => intro j hj; simp [firstMinIdx] at hj
  | cons x xs ih =>
    intro j hj
    by_cases hall : ∀ v ∈ xs, key x ≤ key v
    · rw [firstMinIdx, if_pos hall] at hj
      omega
    · rw [firstMinIdx, if_neg hall] at hj ⊢
      push_neg at hall
      obtain ⟨v, hv, hvlt⟩ := hall
      match j with
      | 0 =>
        simp only [List.getD_cons_succ, List.getD_cons_zero]
        obtain ⟨jv, hjv, rfl⟩ := exists_getD_of_mem hv d
        exact lt_of_le_of_lt (firstMinIdx_min key xs d jv hjv) hvlt
      | j + 1 =>
        simp only [List.getD_cons_succ]
        exact ih j (by omega)

theorem firstMinIdx_map {α : Type} (f : α → Int) (l : List α) :
    firstMinIdx id (l.map f) = firstMinIdx f l := by
  induction l with
  | nil => rfl
  | cons x xs ih =>
    rw [List.map_cons, firstMinIdx, firstMinIdx, ih]
    congr 1
    simp

/-! ### Helper lemmas: palette rasters are fixed points of the diffusion -/

/-- A raster whose pixels are all exactly palette colours. -/
def allPalette (g : Grid) : Prop := ∀ row ∈ g, ∀ p ∈ row, p ∈ palette

instance (g : Grid) : Decidable (allPalette g) := by
  unfold allPalette; infer_instance

theorem find_closest_palette {p : Pixel} (hp : p ∈ palette) :
    find_closest p = p := by
  simp only [palette, List.mem_cons, List.not_mem_nil, or_false] at hp
  rcases hp with rfl | rfl | rfl | rfl | rfl | rfl <;> decide

theorem clampPx_palette {p : Pixel} (hp : p ∈ palette) : clampPx p = p := by
  simp only [palette, List.mem_cons, List.not_mem_nil, or_false] at hp
  rcases hp with rfl | rfl | rfl | rfl | rfl | rfl <;> decide

theorem set_getD_self {α : Type} :
    ∀ (l : List α) (i : Nat) (d : α), l.set i (l.getD i d) = l
  | [], _, _ => by simp
  | a :: t, 0, d => by simp
  | a :: t, i + 1, d => by
    simp only [List.getD_cons_succ, List.set_cons_succ, List.cons.injEq, true_and]
    exact set_getD_self t i d

theorem setPx_getPx_self (g : Grid) (x y : Nat) :
    setPx g x y (getPx g x y) = g := by
  unfold setPx getPx getRow
  rw [set_getD_self, set_getD_self]

theorem getPx_palette {g : Grid} (hg : allPalette g) (x y : Nat) :
    getPx g x y ∈ palette := by
  unfold getPx getRow
  by_cases hy : y < g.length
  · have hrow := getD_mem_of_lt g y [] hy
    by_cases hx : x < (g.getD y []).length
    · exact hg _ hrow _ (getD_mem_of_lt _ x _ hx)
    · rw [List.getD_eq_getElem?_getD, List.getElem?_eq_none (by omega)]
      decide
  · rw [List.getD_eq_getElem?_getD (l := g), List.getElem?_eq_none (by omega)]
    simp only [Option.getD_none, List.getD_nil]
    decide

theorem addErr_zero {g : Grid} (hg : allPalette g) (d v : Int) (x y : Nat) :
    addErr d (0, 0, 0) v (getPx g x y) = getPx g x y := by
  have hp := getPx_palette hg x y
  have : addErr d (0, 0, 0) v (getPx g x y) = clampPx (getPx g x y) := by
    unfold addErr addChan clampPx
    simp [Int.zero_fdiv]
  rw [this, clampPx_palette hp]

theorem diffuseAt_zero {g : Grid} (hg : allPalette g) (d : Int) (w h : Nat)
    (v nx ny : Int) : diffuseAt d w h (0, 0, 0) v nx ny g = g := by
  unfold diffuseAt
  split
  · rw [addErr_zero hg, setPx_getPx_self]
  · rfl

theorem propagate_zero {g : Grid} (hg : allPalette g) (d ax ay : Int)
    (w h x y : Nat) :
    ∀ entries, propagate d ax ay w h x y (0, 0, 0) g entries = g := by
  intro entries
  induction entries with
  | nil => rfl
  | cons e rest ih =>
    obtain ⟨dy, dx, v⟩ := e
    rw [propagate]
    split
    · exact ih
    · rw [diffuseAt_zero hg]
      exact ih

theorem processPixel_palette_id {g : Grid} (hg : allPalette g)
    (kernel : List (List Int)) (d ax ay : Int) (w h x y : Nat) :
    processPixel kernel d ax ay w h g x y = g := by
  have herr : errOf (getPx g x y) (getPx g x y) = ((0 : Int), (0 : Int), (0 : Int)) := by
    unfold errOf; simp
  show propagate d ax ay w h x y (errOf (getPx g x y) (find_closest (getPx g x y)))
      (setPx g x y (find_closest (getPx g x y))) (kernelEntries kernel) = g
  rw [find_closest_palette (getPx_palette hg x y), setPx_getPx_self, herr,
    propagate_zero hg]

theorem foldl_processPixel_id {g : Grid} (hg : allPalette g)
    (kernel : List (List Int)) (d ax ay : Int) (w h : Nat) :
    ∀ ps : List (Nat × Nat),
      ps.foldl (fun acc pos => processPixel kernel d ax ay w h acc pos.1 pos.2) g = g := by
  intro ps
  induction ps with
  | nil => rfl
  | cons p ps ih =>
    rw [List.foldl_cons, processPixel_palette_id hg]
    exact ih

theorem error_diffusion_palette_id {g : Grid} (hg : allPalette g)
    (kernel : List (List Int)) (d : Int) (anchor : Int × Int) :
    error_diffusion g kernel d anchor = g := by
  show (scanPositions (g.headD []).length g.length).foldl
      (fun acc pos =>
        processPixel kernel d anchor.1 anchor.2 (g.headD []).length g.length acc pos.1 pos.2)
      g = g
  exact foldl_processPixel_id hg kernel d anchor.1 anchor.2 _ _ _

theorem atk_entries : kernelEntries atkinson_equiv_kernel =
    [(0,0,0),(0,1,0),(0,2,0),(0,3,1),(0,4,1),
     (1,0,0),(1,1,1),(1,2,1),(1,3,1),(1,4,0),
     (2,0,0),(2,1,0),(2,2,1),(2,3,0),(2,4,0)] := by rfl

theorem addErr_one_eight (err p : Pixel) :
    addErr 8 err 1 p = clampPx (addPx p (fdiv8 err)) := by
  unfold addErr addChan clampPx addPx fdiv8
  simp [mul_one]

theorem diffuseAt_one_eight (w h : Nat) (err : Pixel) (nx ny : Int) (g : Grid) :
    diffuseAt 8 w h err 1 nx ny g = atkAddAt w h (fdiv8 err) nx ny g := by
  unfold diffuseAt atkAddAt
  rw [addErr_one_eight]

theorem propagate_atk_eq_neighbors (w h x y : Nat) (err : Pixel) (g : Grid) :
    propagate 8 2 0 w h x y err g (kernelEntries atkinson_equiv_kernel)
      = atkNeighbors w h x y (fdiv8 err) g atkinson_offsets := by
  rw [atk_entries]
  simp only [propagate, atkNeighbors, atkinson_offsets, diffuseAt_one_eight]
  norm_num
  ring_nf

theorem find_closest_np_eq (c : Pixel) : find_closest_np c = find_closest c := by
  unfold find_closest_np find_closest np_argmin
  rw [firstMinIdx_map]
  have hkey : npDist c = fun p => dist2 c p := by
    funext p; unfold npDist dist2; ring
  rw [hkey]

theorem atkProcess_eq (w h : Nat) (g : Grid) (x y : Nat) :
    atkProcess w h g x y = processPixel atkinson_equiv_kernel 8 2 0 w h g x y := by
  show atkNeighbors w h x y (fdiv8 (errOf (getPx g x y) (find_closest_np (getPx g x y))))
      (setPx g x y (find_closest_np (getPx g x y))) atkinson_offsets
    = propagate 8 2 0 w h x y (errOf (getPx g x y) (find_closest (getPx g x y)))
      (setPx g x y (find_closest (getPx g x y))) (kernelEntries atkinson_equiv_kernel)
  rw [find_closest_np_eq, propagate_atk_eq_neighbors]

theorem atkinson_eq_error_diffusion (g : Grid) :
    atkinson_dither_fast g = error_diffusion g atkinson_equiv_kernel 8 (2, 0) := by
  show (scanPositions (g.headD []).length g.length).foldl
      (fun acc pos => atkProcess (g.headD []).length g.length acc pos.1 pos.2) g
    = (scanPositions (g.headD []).length g.length).foldl
      (fun acc pos =>
        processPixel atkinson_equiv_kernel 8 2 0 (g.headD []).length g.length acc pos.1 pos.2) g
  apply List.foldl_ext
  intro acc b _
  exact atkProcess_eq _ _ acc b.1 b.2

theorem atkinson_palette_id {g : Grid} (hg : allPalette g) :
    atkinson_dither_fast g = g := by
  rw [atkinson_eq_error_diffusion, error_diffusion_palette_id hg]

/-! ### Helper lemmas: command execution and the counter -/

theorem runCmds_fail_char {α : Type} (fails : EpdCmd α → Bool) :
    ∀ l : List (EpdCmd α), (runCmds fails l).2 = false →
      ∃ pre f post, l = pre ++ f :: post ∧ (∀ x ∈ pre, fails x = false) ∧
        fails f = true ∧ (runCmds fails l).1 = pre ++ [f] := by
  intro l
  induction l with
  | nil => intro h; simp [runCmds] at h
  | cons c rest ih =>
    intro h
    by_cases hc : fails c = true
    · exact ⟨[], c, rest, by simp, by simp, hc, by simp [runCmds, hc]⟩
    · rw [runCmds, if_neg (by simp [hc])] at h
      obtain ⟨pre, f, post, hsplit, hpre, hf, htrace⟩ := ih h
      refine ⟨c :: pre, f, post, by simp [hsplit], ?_, hf, ?_⟩
      · intro x hx
        rcases List.mem_cons.mp hx with rfl | hx
        · simpa using hc
        · exact hpre x hx
      · rw [runCmds, if_neg (by simp [hc])]
        simp [htrace]

theorem update_counter_after_eq (k : Nat) : update_counter_after k = k := by
  induction k with
  | zero => rfl
  | succ k ih => rw [update_counter_after, ih]; rfl

theorem nth_task_has_clear_iff (k : Nat) :
    nth_task_has_clear k ↔ (k + 1) % 5 = 0 := by
  unfold nth_task_has_clear nth_task_cmds display_image_run
  rw [update_counter_after_eq]
  by_cases h : (k + 1) % 5 = 0
  · simp [h]
  · simp [h]

/-! ## Claim theorems -/

/-- Claim C2 (confirmed): for every 3-channel colour sample, nearest-colour
search — both the `min`-based search of `error_diffusion` and the
`np.argmin`-based `find_closest` of `atkinson_dither_fast` — returns the
entry of the fixed ordered 6-colour palette (red, green, blue, yellow,
black, white) minimising the squared Euclidean distance summed over the
three channels, and when several entries attain the minimal distance the
first such entry in palette order is returned (every strictly earlier
entry has strictly larger distance). -/
theorem C2_nearest_color (c : Pixel) :
    palette = [(255, 0, 0), (0, 255, 0), (0, 0, 255), (255, 255, 0), (0, 0, 0), (255, 255, 255)]
    ∧ find_closest c ∈ palette
    ∧ (∀ p ∈ palette, dist2 c (find_closest c) ≤ dist2 c p)
    ∧ (∃ i, i < palette.length ∧ palette.getD i (0, 0, 0) = find_closest c
        ∧ ∀ j < i, dist2 c (find_closest c) < dist2 c (palette.getD j (0, 0, 0)))
    ∧ find_closest_np c = find_closest c := by
  have hlen : firstMinIdx (fun p => dist2 c p) palette < palette.length := by
    unfold palette
    exact firstMinIdx_lt_length _ _ _
  refine ⟨rfl, ?_, ?_, ?_, find_closest_np_eq c⟩
  · exact getD_mem_of_lt _ _ _ hlen
  · intro p hp
    obtain ⟨j, hj, rfl⟩ := exists_getD_of_mem hp (0, 0, 0)
    exact firstMinIdx_min (fun p => dist2 c p) palette (0, 0, 0) j hj
  · exact ⟨firstMinIdx (fun p => dist2 c p) palette, hlen, rfl,
      fun j hj => firstMinIdx_strict (fun p => dist2 c p) palette (0, 0, 0) j hj⟩

/-- Claim C10 (confirmed): a raster whose pixels are all exactly palette
colours is returned unchanged by every dithering algorithm implemented in
the source (Atkinson and the generic error-diffusion family, including the
commented-out Jarvis-Judice-Ninke kernel): each pixel quantises to itself,
the per-channel error is zero, and a zero error injects nothing into any
neighbour. -/
theorem C10_palette_fixed (g : Grid) (hg : allPalette g) :
    atkinson_dither_fast g = g
    ∧ shiaufan2_dither g = g
    ∧ stucki_dither g = g
    ∧ burkes_dither g = g
    ∧ error_diffusion g jarvis_judice_ninke_kernel 48 (2, 0) = g :=
  ⟨atkinson_palette_id hg, error_diffusion_palette_id hg _ _ _,
    error_diffusion_palette_id hg _ _ _, error_diffusion_palette_id hg _ _ _,
    error_diffusion_palette_id hg _ _ _⟩

/-- Witness for C10 at a concrete all-palette 2x2 raster. -/
theorem C10_palette_fixed_witness :
    allPalette [[(255, 0, 0), (0, 0, 0)], [(255, 255, 255), (0, 255, 0)]]
    ∧ (atkinson_dither_fast [[(255, 0, 0), (0, 0, 0)], [(255, 255, 255), (0, 255, 0)]]
          = [[(255, 0, 0), (0, 0, 0)], [(255, 255, 255), (0, 255, 0)]]
        ∧ shiaufan2_dither [[(255, 0, 0), (0, 0, 0)], [(255, 255, 255), (0, 255, 0)]]
          = [[(255, 0, 0), (0, 0, 0)], [(255, 255, 255), (0, 255, 0)]]
        ∧ stucki_dither [[(255, 0, 0), (0, 0, 0)], [(255, 255, 255), (0, 255, 0)]]
          = [[(255, 0, 0), (0, 0, 0)], [(255, 255, 255), (0, 255, 0)]]
        ∧ burkes_dither [[(255, 0, 0), (0, 0, 0)], [(255, 255, 255), (0, 255, 0)]]
          = [[(255, 0, 0), (0, 0, 0)], [(255, 255, 255), (0, 255, 0)]]
        ∧ error_diffusion [[(255, 0, 0), (0, 0, 0)], [(255, 255, 255), (0, 255, 0)]]
            jarvis_judice_ninke_kernel 48 (2, 0)
          = [[(255, 0, 0), (0, 0, 0)], [(255, 255, 255), (0, 255, 0)]]) :=
  ⟨by decide, C10_palette_fixed _ (by decide)⟩

/-- Claim C7 (confirmed): the wired error-diffusion variants use exactly
the stated kernel constants — Shiau-Fan-2 rows `[0,0,0,8,4]; [2,4,8,4,2];
[1,2,4,2,1]`, divisor 42, anchor (0,0); Stucki rows `[0,0,8,4,2];
[2,4,8,4,2]; [1,2,4,2,1]`, divisor 42, anchor (2,0); Burkes rows
`[0,0,8,4,0]; [2,4,8,4,2]`, divisor 32, anchor (2,0); and Atkinson is the
generic diffusion whose kernel has weight 1 at exactly the six offsets
`(1,0),(2,0),(-1,1),(0,1),(1,1),(0,2)` with divisor 8. -/
theorem C7_kernel_constants :
    (∀ g, shiaufan2_dither g
        = error_diffusion g [[0, 0, 0, 8, 4], [2, 4, 8, 4, 2], [1, 2, 4, 2, 1]] 42 (0, 0))
    ∧ (∀ g, stucki_dither g
        = error_diffusion g [[0, 0, 8, 4, 2], [2, 4, 8, 4, 2], [1, 2, 4, 2, 1]] 42 (2, 0))
    ∧ (∀ g, burkes_dither g
        = error_diffusion g [[0, 0, 8, 4, 0], [2, 4, 8, 4, 2]] 32 (2, 0))
    ∧ (∀ g, atkinson_dither_fast g = error_diffusion g atkinson_equiv_kernel 8 (2, 0))
    ∧ atkinson_offsets = [(1, 0), (2, 0), (-1, 1), (0, 1), (1, 1), (0, 2)]
    ∧ nonzeroOffsets atkinson_equiv_kernel (2, 0)
        = atkinson_offsets.map (fun o => (o.1, o.2, (1 : Int))) :=
  ⟨fun _ => rfl, fun _ => rfl, fun _ => rfl, atkinson_eq_error_diffusion, rfl, by decide⟩

/-- Counterexample to claim C6: selecting `"jarvis-judice-ninke"` does not
apply the generic error-diffusion with the JJN kernel — `apply_dithering`
has no branch for that name (the branch is commented out in the source),
so it falls to the default library call.  On the 1x1 raster `[[(200,0,0)]]`
the fallback (instantiating the external library call with the identity)
returns `[[(200,0,0)]]`, while the JJN diffusion quantises the pixel. -/
theorem C6_counterexample :
    ¬ ∀ (libFS : Grid → Grid) (g : Grid),
        apply_dithering libFS g "jarvis-judice-ninke"
          = error_diffusion g jarvis_judice_ninke_kernel 48 (2, 0) := by
  intro h
  have h1 := h (fun g => g) [[(200, 0, 0)]]
  have h2 : apply_dithering (fun g => g) [[(200, 0, 0)]] "jarvis-judice-ninke"
      = [[(200, 0, 0)]] := rfl
  rw [h2] at h1
  exact absurd h1 (by decide)

/-- Claim C6 as amended (proved): the name `"jarvis-judice-ninke"` is
accepted by the `/mode/dither/set` endpoint, but `apply_dithering` has no
branch for it (the branch and the kernel function are commented out), so
the selection silently falls back to the default library Floyd-Steinberg
conversion — the same result as selecting `"floyd-steinberg"`.  The JJN
kernel `[0,0,7,5,3]; [3,5,7,5,3]; [1,3,5,3,1]`, divisor 48, anchor (2,0)
survives only in the commented-out code. -/
theorem C6_amended (libFS : Grid → Grid) (g : Grid) :
    apply_dithering libFS g "jarvis-judice-ninke" = libFS g
    ∧ apply_dithering libFS g "jarvis-judice-ninke"
        = apply_dithering libFS g "floyd-steinberg"
    ∧ "jarvis-judice-ninke" ∈ set_dither_valid :=
  ⟨rfl, rfl, by decide⟩

/-- Counterexample to claim C1: the error share added to a propagation
target is computed with Python's floor division `//`, not truncation
toward zero.  In `burkes_dither [[(254,0,0),(0,0,0)]]` the first pixel
quantises to red with channel error -1; the weight-8 kernel entry at
offset 0 from the anchor rewrites that pixel's red channel to
`255 + fdiv(-1*8, 32) = 254` (observable in the final raster), whereas
truncation toward zero (`Int.tdiv`) would add 0 and leave 255. -/
theorem C1_counterexample :
    burkes_dither [[(254, 0, 0), (0, 0, 0)]] = [[(254, 0, 0), (0, 0, 0)]]
    ∧ addChan 32 (-1) 8 255 = 254
    ∧ ¬ addChan 32 (-1) 8 255 = clampChan (255 + Int.tdiv ((-1) * 8) 32) :=
  ⟨by decide, by decide, by decide⟩

/-- Claim C1 as amended (proved): the increment added to an in-bounds
target's working channel is `error * weight // divisor` with Python floor
division (`Int.fdiv`), which agrees with truncation toward zero whenever
`error * weight` is non-negative (divisor positive) but is the
mathematical floor — one less than truncation — on negative products that
the divisor does not divide; and Atkinson is the generic diffusion with
weight 1 at its six offsets and divisor 8, so its per-channel error is
floor-divided by 8 once, the remainder discarded and never carried
forward. -/
theorem C1_amended (e v d c : Int) (hd : 0 < d) :
    addChan d e v c = clampChan (c + Int.fdiv (e * v) d)
    ∧ (0 ≤ e * v → Int.fdiv (e * v) d = Int.tdiv (e * v) d)
    ∧ (∀ g, atkinson_dither_fast g = error_diffusion g atkinson_equiv_kernel 8 (2, 0)) := by
  refine ⟨rfl, ?_, atkinson_eq_error_diffusion⟩
  intro hev
  rw [Int.fdiv_eq_ediv _ (le_of_lt hd), Int.tdiv_eq_ediv hev (le_of_lt hd)]

/-- Witness for the amended C1 at `e = 3`, `v = 8`, `d = 32`, `c = 10`. -/
theorem C1_amended_witness :
    (0 : Int) < 32
    ∧ (addChan 32 3 8 10 = clampChan (10 + Int.fdiv (3 * 8) 32)
        ∧ (0 ≤ (3 : Int) * 8 → Int.fdiv ((3 : Int) * 8) 32 = Int.tdiv ((3 : Int) * 8) 32)
        ∧ (∀ g, atkinson_dither_fast g = error_diffusion g atkinson_equiv_kernel 8 (2, 0))) :=
  ⟨by decide, C1_amended 3 8 32 10 (by decide)⟩

instance {α : Type} [DecidableEq α] (threads : List (List (EpdCmd α)))
    (cmd : EpdCmd α) : Decidable (sentToHardware threads cmd) := by
  unfold sentToHardware; infer_instance

theorem submission_one_display {α : Type} (c : Nat) (img : α) :
    countDisplays (submission_cmds c img) = 1
    ∧ EpdCmd.display img ∈ submission_cmds c img := by
  unfold submission_cmds display_image_run countDisplays
  cases h : (c + 1) % 5 == 0 <;>
    simp [h, List.countP_cons, List.countP_nil]

/-- Counterexample to claim C3: with the code's maintenance interval
(`count % 5 == 0` after the increment), it is the 5th task from counter 0
— not the 6th — that is preceded by the full Clear cycle, and the counter
after the clearing task is 5, never reset to 1. -/
theorem C3_counterexample :
    ¬ ((∀ k < 5, ¬ nth_task_has_clear k) ∧ nth_task_has_clear 5
        ∧ update_counter_after 6 = 1) := by
  decide

/-- Claim C3 as amended (proved): starting from counter value 0, the first
4 successful Display tasks are not preceded by a maintenance Clear; the
5th task is preceded by a full Clear cycle (`Init`, `Clear`, `sleep`)
issued before that task's own `Init`/`display` commands; the counter
observed after `k` tasks equals `k` (increment only, never reset), and in
general task `k+1` is preceded by a Clear iff `(k+1) % 5 = 0`. -/
theorem C3_amended :
    (∀ k < 4, ¬ nth_task_has_clear k)
    ∧ nth_task_has_clear 4
    ∧ update_counter_after 5 = 5
    ∧ (∀ k, update_counter_after k = k)
    ∧ (∀ k, nth_task_has_clear k ↔ (k + 1) % 5 = 0)
    ∧ nth_task_cmds 4 = [EpdCmd.Init, EpdCmd.Clear, EpdCmd.sleep,
        EpdCmd.Init, EpdCmd.display (), EpdCmd.sleep] :=
  ⟨by decide, by decide, by decide, update_counter_after_eq,
    nth_task_has_clear_iff, by decide⟩

/-- Counterexample to claim C4: the maintenance counter is not persisted.
After one successful `display_image` from the initial state the in-memory
counter is 1, but a process restart re-initialises it from the module
(`update_counter = 0`) and the durable `config.json` contains no counter
field, so the next task observes 0, not the claimed last-saved value. -/
theorem C4_counterexample :
    ¬ (restart (display_image_state initialState)).update_counter
        = (display_image_state initialState).update_counter := by
  decide

/-- Claim C4 as amended (proved): `update_counter` is an in-memory module
global only — `display_image` increments it on every call (before the
hardware work, so also on failing tasks) and never writes `config.json`;
no durable copy exists, and after a restart the counter is 0 regardless of
how many displays were performed. -/
theorem C4_amended (s : AppState) :
    (display_image_state s).update_counter = s.update_counter + 1
    ∧ (display_image_state s).disk = s.disk
    ∧ (restart s).update_counter = 0
    ∧ (restart s).disk = s.disk :=
  ⟨rfl, rfl, rfl, rfl⟩

/-- Counterexample to claim C5: there is no queue and no coalescing —
`set_single` spawns a fresh thread per request, and each thread's
`display_image` unconditionally issues its own hardware `display` command.
Submitting Display("A"), Display("B"), Display("C") in rapid succession
yields three hardware Display commands, and "A" and "B" are both sent to
hardware, contradicting "exactly one additional cycle, rendering C". -/
theorem C5_counterexample :
    sentToHardware threads3 (EpdCmd.display "A")
    ∧ sentToHardware threads3 (EpdCmd.display "B")
    ∧ sentToHardware threads3 (EpdCmd.display "C")
    ∧ (threads3.map countDisplays).sum = 3
    ∧ ¬ (threads3.map countDisplays).sum = 1 :=
  ⟨by decide, by decide, by decide, by decide, by decide⟩

/-- Claim C5 as amended (proved): each submission spawns an independent
thread whose command list contains exactly one hardware `display` — of its
own image — so `k` rapid submissions produce `k` hardware Display cycles
and every submitted image is sent to hardware; no last-task-wins
coalescing exists in the code. -/
theorem C5_amended :
    (∀ (c : Nat) (img : String),
        countDisplays (submission_cmds c img) = 1
        ∧ EpdCmd.display img ∈ submission_cmds c img)
    ∧ ∀ subs : List (Nat × String),
        ((subs.map fun p => submission_cmds p.1 p.2).map countDisplays).sum
          = subs.length := by
  refine ⟨fun c img => submission_one_display c img, ?_⟩
  intro subs
  induction subs with
  | nil => rfl
  | cons p ps ih =>
    simp only [List.map_cons, List.sum_cons, ih,
      (submission_one_display p.1 p.2).1, List.length_cons]
    omega

/-- Counterexample to claim C8: when the hardware `display` call fails
(counter 0, so no maintenance clear), `update_epaper_thread` catches the
exception and stops — the executed command trace is `[Init, display]` and
no Sleep is attempted before control returns. -/
theorem C8_counterexample :
    update_epaper_run failsDisplay 0 () = ([EpdCmd.Init, EpdCmd.display ()], false)
    ∧ ¬ (update_epaper_run failsDisplay 0 ()).1.getLast? = some EpdCmd.sleep :=
  ⟨by decide, by decide⟩

/-- Claim C8 as amended (proved): a failure during the Wake (`Init`) or
Operating (`Clear`/`display`) commands of a task is caught at the
`update_epaper_thread` boundary (completion flag false), but the session
does NOT attempt Sleep before returning: execution stops at the failing
command, the executed trace ends with that command (hence not with
`sleep`, the failing call being a non-sleep command) and is a prefix of
the task's full command list. -/
theorem C8_amended {α : Type} (fails : EpdCmd α → Bool) (c : Nat) (img : α)
    (hsleep : fails EpdCmd.sleep = false)
    (hfail : (update_epaper_run fails c img).2 = false) :
    (∃ f, fails f = true ∧ (update_epaper_run fails c img).1.getLast? = some f)
    ∧ (update_epaper_run fails c img).1.getLast? ≠ some EpdCmd.sleep
    ∧ ∃ rest, (update_epaper_run fails c img).1 ++ rest
        = (display_image_run c img).2 := by
  obtain ⟨pre, f, post, hsplit, hpre, hf, htrace⟩ :=
    runCmds_fail_char fails (display_image_run c img).2 hfail
  have hlast : (update_epaper_run fails c img).1.getLast? = some f := by
    show (runCmds fails (display_image_run c img).2).1.getLast? = some f
    rw [htrace, List.getLast?_concat]
  refine ⟨⟨f, hf, hlast⟩, ?_, ⟨post, ?_⟩⟩
  · rw [hlast]
    intro hcontra
    have : f = EpdCmd.sleep := by simpa using hcontra
    rw [this, hsleep] at hf
    exact absurd hf (by simp)
  · show (runCmds fails (display_image_run c img).2).1 ++ post
        = (display_image_run c img).2
    rw [htrace, hsplit]
    simp

/-- Witness for the amended C8: `display` fails on the first task. -/
theorem C8_amended_witness :
    failsDisplay EpdCmd.sleep = false
    ∧ (update_epaper_run failsDisplay 0 ()).2 = false
    ∧ ((∃ f, failsDisplay f = true
          ∧ (update_epaper_run failsDisplay 0 ()).1.getLast? = some f)
        ∧ (update_epaper_run failsDisplay 0 ()).1.getLast? ≠ some EpdCmd.sleep
        ∧ ∃ rest, (update_epaper_run failsDisplay 0 ()).1 ++ rest
            = (display_image_run 0 ()).2) :=
  ⟨rfl, rfl, C8_amended failsDisplay 0 () rfl rfl⟩

/-- Claim C9, code bug (proved): every call to the `/preview` handler
fails.  Its body reads the global name `rendered_image_data`, but the
module never binds that name — the publisher (`update_epaper_thread`)
writes `rendered_data` — so whatever preview bytes and completion flag
have been published, evaluating the handler raises `NameError` instead of
returning the pair. -/
theorem C9_preview_name_error (st : DisplayState) :
    preview_handler st
      = Except.error "NameError: name rendered_image_data is not defined" := rfl

end Spectra

